import Mathlib

set_option autoImplicit false

/-!
Verification of the browser-automation bot core: tool registry and dispatch
(src/mcp-tools/core/base-tool.ts, src/mcp-tools/core/registry.ts,
src/mcp-tools/mcp-tools-manager.ts), the resilient form-field locator
(src/mcp-tools/tools/form.ts) and the human-in-the-loop session manager
(src/automation/human-in-loop-login.ts).

The TypeScript sources are embedded shallowly: JavaScript objects holding
tool arguments become association lists of JSON values, Promise-returning
functions that may throw become `Except String` computations, and the
Playwright browser driver is abstracted by oracle functions describing the
outcome of each external call (whether a selector matches, whether a
navigation attempt succeeds, whether a file write succeeds, ...).
-/

namespace Bot

/-! ## JSON values (JavaScript runtime values crossing the tool boundary) -/

/-- A JavaScript value as seen by the argument validator: the `typeof`
classes the validator distinguishes. `obj` stands for any non-array object
(reference equality with a schema enum literal is always false, so the
payload of an object is irrelevant to validation). -/
inductive JValue where
  | str (s : String)
  | num (n : Int)
  | bool (b : Bool)
  | arr (elems : List JValue)
  | obj
  | null

/-- `typeof v === "string"`. -/
def JValue.isStr : JValue → Bool
  | .str _ => true
  | _ => false

/-- `typeof v === "number"`. -/
def JValue.isNum : JValue → Bool
  | .num _ => true
  | _ => false

/-- `typeof v === "boolean"`. -/
def JValue.isBool : JValue → Bool
  | .bool _ => true
  | _ => false

/-- `Array.isArray(v)`. -/
def JValue.isArr : JValue → Bool
  | .arr _ => true
  | _ => false

/-- JavaScript truthiness of a value (`if (value)`). -/
def jsTruthy : JValue → Bool
  | .str s => s ≠ ""
  | .num n => n ≠ 0
  | .bool b => b
  | .arr _ => true
  | .obj => true
  | .null => false

mutual

/-- `String(v)` / template-literal interpolation. Arrays stringify by
joining their elements with commas, plain objects print as
`[object Object]`. -/
def jsString : JValue → String
  | .str s => s
  | .num n => toString n
  | .bool b => if b then "true" else "false"
  | .null => "null"
  | .obj => "[object Object]"
  | .arr xs => String.intercalate "," (jsStringList xs)

/-- `String` applied to each element of an array value. -/
def jsStringList : List JValue → List String
  | [] => []
  | x :: xs => jsString x :: jsStringList xs

end

/-- JavaScript strict equality (`===`, as used by `Array.prototype.includes`
with SameValueZero): primitives compare by value; arrays and objects compare
by reference, which for two independently constructed values is `false`.
The schemas in this repository only list primitive enum values, so the
reference case never decides a validation. -/
def jsStrictEq : JValue → JValue → Bool
  | .str a, .str b => a == b
  | .num a, .num b => a == b
  | .bool a, .bool b => a == b
  | .null, .null => true
  | _, _ => false

/-- An argument object: the own enumerable entries of the `args` object, in
insertion order, as produced by `Object.entries`. -/
abbrev Args := List (String × JValue)

/-- `key in args`. -/
def hasKey (args : Args) (k : String) : Bool :=
  args.any fun kv => kv.1 == k

/-! ## Tool schemas (src/mcp-tools/core/types.ts, `MCPToolSchema`) -/

/-- One property schema inside `inputSchema.properties`. Presentation-only
fields the validator never reads (`description`, `format`, `pattern`,
`minLength`, `maxLength`, `items`) are omitted. -/
structure PropSchema where
  type : String
  enum : Option (List JValue) := none
  minimum : Option Int := none
  maximum : Option Int := none
  default : Option JValue := none

/-- `MCPToolSchema`: the JSON-Schema-like shape of a tool input. The
top-level `type: 'object'` tag is constant and omitted. -/
structure MCPToolSchema where
  properties : List (String × PropSchema)
  required : List String
  additionalProperties : Option Bool := none

/-- `schema.properties[key]` (`undefined` when absent). -/
def lookupProp (props : List (String × PropSchema)) (k : String) : Option PropSchema :=
  (props.find? fun p => p.1 == k).map (·.2)

/-! ## Argument validation (base-tool.ts, `BaseMCPTool.validateArguments`) -/

/-- The `typeCheck` disjunction of `validateArguments`: true when the
declared type is one of the four checked type strings and the value fails
the corresponding `typeof` / `Array.isArray` test. -/
def typeMismatch (declared : String) (v : JValue) : Bool :=
  (declared == "string" && !v.isStr) ||
  (declared == "number" && !v.isNum) ||
  (declared == "boolean" && !v.isBool) ||
  (declared == "array" && !v.isArr)

/-- Errors pushed by the `for (const required of schema.required)` loop. -/
def requiredErrors (required : List String) (args : Args) : List String :=
  required.filterMap fun r =>
    if hasKey args r then none
    else some ("Missing required property: " ++ r)

/-- The enum-violation message: `Property 'k' must be one of: ...`. -/
def enumMessage (k : String) (es : List JValue) : String :=
  "Property \x27" ++ k ++ "\x27 must be one of: " ++
    String.intercalate ", " (es.map jsString)

/-- The type-violation message: `Property 'k' must be <type>`. -/
def typeMessage (k : String) (t : String) : String :=
  "Property \x27" ++ k ++ "\x27 must be " ++ t

/-- Errors pushed by the `for (const [key, value] of Object.entries(args))`
loop: unknown property (when `additionalProperties` is not truthy), then a
type check, and only when the type check passes an enum-membership check.
Each entry contributes at most one error, in argument order. -/
def argEntryError (props : List (String × PropSchema))
    (additionalProperties : Option Bool) (kv : String × JValue) : Option String :=
  match lookupProp props kv.1 with
  | none =>
    if additionalProperties = some true then none
    else some ("Unexpected property: " ++ kv.1)
  | some ps =>
    if typeMismatch ps.type kv.2 then
      some (typeMessage kv.1 ps.type)
    else
      match ps.enum with
      | some es => if es.any (fun e => jsStrictEq e kv.2) then none else some (enumMessage kv.1 es)
      | none => none

/-- Result record of `validateArguments`. -/
structure ValidationResult where
  valid : Bool
  errors : List String
deriving DecidableEq, Repr

/-- `BaseMCPTool.validateArguments` (base-tool.ts lines 40-77): collects all
missing-required errors, then one error per offending argument entry, and is
valid exactly when no error was collected. -/
def validateArguments (schema : MCPToolSchema) (args : Args) : ValidationResult :=
  let errors := requiredErrors schema.required args ++
    args.filterMap (argEntryError schema.properties schema.additionalProperties)
  { valid := errors.isEmpty, errors := errors }

/-! ## A concrete schema from the catalog: `browser_click` (interaction.ts) -/

/-- The `inputSchema` of `ClickTool` (`browser_click`). -/
def clickSchema : MCPToolSchema :=
  { properties :=
      [ ("selector", { type := "string" }),
        ("button", { type := "string",
                     enum := some [.str "left", .str "right", .str "middle"],
                     default := some (.str "left") }),
        ("modifiers", { type := "array" }),
        ("doubleClick", { type := "boolean", default := some (.bool false) }),
        ("force", { type := "boolean", default := some (.bool false) }),
        ("timeout", { type := "number", minimum := some 0, maximum := some 60000,
                      default := some (.num 5000) }) ],
    required := ["selector"] }

example :
    validateArguments clickSchema [("selector", .str "#go"), ("button", .str "left")] =
      { valid := true, errors := [] } := by decide

example :
    validateArguments clickSchema [("selector", .str "#go"), ("button", .str "top")] =
      { valid := false,
        errors := ["Property \x27button\x27 must be one of: left, right, middle"] } := by
  decide

theorem validateArguments_errors (schema : MCPToolSchema) (args : Args) :
    (validateArguments schema args).errors =
      requiredErrors schema.required args ++
        args.filterMap (argEntryError schema.properties schema.additionalProperties) := rfl

theorem validateArguments_valid (schema : MCPToolSchema) (args : Args) :
    (validateArguments schema args).valid = (validateArguments schema args).errors.isEmpty := rfl

/-- Claim C2 (counterexample): validation is not exhaustive across the
violation categories on a single field. Calling `browser_click` with
`button: 42` violates both the declared-type constraint (`string`) and the
enum constraint (`42` is not one of `left`, `right`, `middle`), yet the
validator reports only the type violation: the enum violation is absent and
only one error is returned for the two violated constraints. -/
theorem C2_enum_subsumed_counterexample :
    (validateArguments clickSchema [("selector", .str "#btn"), ("button", .num 42)]).errors =
      ["Property \x27button\x27 must be string"] ∧
    [JValue.str "left", .str "right", .str "middle"].any
        (fun e => jsStrictEq e (.num 42)) = false ∧
    enumMessage "button" [.str "left", .str "right", .str "middle"] ∉
      (validateArguments clickSchema [("selector", .str "#btn"), ("button", .num 42)]).errors := by
  refine ⟨by decide, by decide, by decide⟩

/-- Claim C2 (amended): validation collects every violation it checks for
into the single returned error list — each missing required field, each
present field whose value fails the declared-type check, each unknown field
when the schema does not allow additional properties, and each enum field
whose value passes the type check but is not one of the listed values (enum
membership is checked only for values of the declared type, so a field that
is both mistyped and outside its enum reports only the type violation) —
and the result is valid exactly when no violation was found. -/
theorem C2_validation_exhaustive_amended (schema : MCPToolSchema) (args : Args) :
    (∀ r ∈ schema.required, hasKey args r = false →
      ("Missing required property: " ++ r) ∈ (validateArguments schema args).errors) ∧
    (∀ kv ∈ args, lookupProp schema.properties kv.1 = none →
      schema.additionalProperties ≠ some true →
      ("Unexpected property: " ++ kv.1) ∈ (validateArguments schema args).errors) ∧
    (∀ kv ∈ args, ∀ ps, lookupProp schema.properties kv.1 = some ps →
      typeMismatch ps.type kv.2 = true →
      typeMessage kv.1 ps.type ∈ (validateArguments schema args).errors) ∧
    (∀ kv ∈ args, ∀ ps es, lookupProp schema.properties kv.1 = some ps →
      ps.enum = some es → typeMismatch ps.type kv.2 = false →
      es.any (fun e => jsStrictEq e kv.2) = false →
      enumMessage kv.1 es ∈ (validateArguments schema args).errors) ∧
    ((validateArguments schema args).valid = true ↔
      (validateArguments schema args).errors = []) := by
  refine ⟨?_, ?_, ?_, ?_, ?_⟩
  · intro r hr h
    rw [validateArguments_errors]
    exact List.mem_append_left _ (List.mem_filterMap.mpr ⟨r, hr, by simp [h]⟩)
  · intro kv hkv hnone hadd
    rw [validateArguments_errors]
    refine List.mem_append_right _ (List.mem_filterMap.mpr ⟨kv, hkv, ?_⟩)
    simp [argEntryError, hnone, hadd]
  · intro kv hkv ps hps hty
    rw [validateArguments_errors]
    refine List.mem_append_right _ (List.mem_filterMap.mpr ⟨kv, hkv, ?_⟩)
    simp [argEntryError, hps, hty]
  · intro kv hkv ps es hps hen hty hmem
    rw [validateArguments_errors]
    refine List.mem_append_right _ (List.mem_filterMap.mpr ⟨kv, hkv, ?_⟩)
    simp [argEntryError, hps, hen, hty, hmem]
  · rw [validateArguments_valid]
    exact List.isEmpty_iff

/-- Claim C2 (witness): a `browser_click` call violating four constraints at
once — required `selector` missing, `button` outside its enum, `timeout`
mistyped, and an unknown `bogus` field — has all four violations reported
in the one returned error list. -/
theorem C2_validation_witness :
    ("Missing required property: selector") ∈
      (validateArguments clickSchema
        [("button", .str "top"), ("timeout", .str "slow"), ("bogus", .num 1)]).errors ∧
    enumMessage "button" [.str "left", .str "right", .str "middle"] ∈
      (validateArguments clickSchema
        [("button", .str "top"), ("timeout", .str "slow"), ("bogus", .num 1)]).errors ∧
    typeMessage "timeout" "number" ∈
      (validateArguments clickSchema
        [("button", .str "top"), ("timeout", .str "slow"), ("bogus", .num 1)]).errors ∧
    ("Unexpected property: bogus") ∈
      (validateArguments clickSchema
        [("button", .str "top"), ("timeout", .str "slow"), ("bogus", .num 1)]).errors := by
  have h := C2_validation_exhaustive_amended clickSchema
    [("button", .str "top"), ("timeout", .str "slow"), ("bogus", .num 1)]
  refine ⟨h.1 "selector" (by simp [clickSchema]) (by decide), ?_, ?_, ?_⟩
  · exact h.2.2.2.1 ("button", .str "top") (by simp)
      { type := "string", enum := some [.str "left", .str "right", .str "middle"],
        default := some (.str "left") }
      [.str "left", .str "right", .str "middle"] rfl rfl (by decide) (by decide)
  · exact h.2.2.1 ("timeout", .str "slow") (by simp)
      { type := "number", minimum := some 0, maximum := some 60000,
        default := some (.num 5000) } rfl (by decide)
  · exact h.2.1 ("bogus", .num 1) (by simp) rfl (by decide)

/-! ## Tool results and `BaseMCPTool.execute` (base-tool.ts) -/

/-- One entry of `MCPToolResult.content`. A content item of a non-text type
has `text` undefined, modelled as `""` (both are falsy where the code reads
`content[0]?.text || fallback`). -/
structure ContentItem where
  type : String
  text : String
deriving DecidableEq, Repr

/-- `MCPToolResult` (types.ts): the uniform result envelope. `isError` is
optional in the source and absent means `false`; `_meta` is omitted (no
claim reads it). -/
structure MCPToolResult where
  content : List ContentItem
  isError : Bool := false
deriving DecidableEq, Repr

/-- `BaseMCPTool.textResult`. -/
def textResult (text : String) : MCPToolResult :=
  { content := [{ type := "text", text := text }] }

/-- `BaseMCPTool.errorResult`. -/
def errorResult (message : String) : MCPToolResult :=
  { content := [{ type := "text", text := message }], isError := true }

/-- A tool implementation body (`_execute`): an async computation that
either resolves to a result or throws, modelled in `Except`. -/
abbrev ToolImpl := Args → Except String MCPToolResult

/-- `BaseMCPTool.execute` (base-tool.ts lines 9-36): validate the
arguments, check that a live page and context are available (the truthiness
of `context.page || this.page` and `context.context || this.context` is
folded into the two Booleans), then run `_execute` catching any thrown
error. The result type is `Except` so that a thrown exception would be
visible as `.error`; the dispatcher-never-throws property says the result
is always `.ok`. -/
def BaseMCPTool.execute (schema : MCPToolSchema) (impl : ToolImpl) (args : Args)
    (pageAvail ctxAvail : Bool) : Except String MCPToolResult :=
  let validation := validateArguments schema args
  if !validation.valid then
    .ok (errorResult ("Argument validation failed: " ++
      String.intercalate ", " validation.errors))
  else if !(pageAvail && ctxAvail) then
    .ok (errorResult "No browser page/context available")
  else
    match impl args with
    | .ok result => .ok result
    | .error e => .ok (errorResult ("Tool execution failed: " ++ e))

/-! ## Tool registry (registry.ts, `MCPToolRegistry`) -/

/-- A registered tool object: its immutable definition plus its `_execute`
body (the `execute` method is the shared `BaseMCPTool.execute` above). -/
structure MCPTool where
  name : String
  inputSchema : MCPToolSchema
  impl : ToolImpl

/-- `ToolMetadata` as passed to `register` (all fields optional). -/
structure ToolMetadata where
  category : Option String := none
  tags : List String := []
  enabled : Option Bool := none

/-- The metadata stored in a registration: `{ enabled: true, ...metadata }`,
so an absent `enabled` defaults to `true` and a caller-supplied one wins. -/
structure StoredMetadata where
  category : Option String
  tags : List String
  enabled : Bool

/-- `ToolRegistration`. -/
structure ToolRegistration where
  tool : MCPTool
  metadata : StoredMetadata

/-- The registry state: the backing `Map` of `MCPToolRegistry`, as its
entries in insertion order (JavaScript `Map` preserves insertion order, and
`set` on an existing key updates in place). -/
abbrev RegistryState := List (String × ToolRegistration)

/-- `Map.prototype.set`: replace in place if the key exists, else append. -/
def mapSet (m : RegistryState) (k : String) (v : ToolRegistration) : RegistryState :=
  if m.any (fun p => p.1 == k) then
    m.map fun p => if p.1 == k then (k, v) else p
  else
    m ++ [(k, v)]

/-- `Map.prototype.get`, returning the registration (or none). -/
def mapGet (m : RegistryState) (k : String) : Option ToolRegistration :=
  (m.find? fun p => p.1 == k).map (·.2)

/-- `MCPToolRegistry.register` (registry.ts lines 184-193): insert or
overwrite by the tool definition name, with `enabled` defaulting to true. -/
def MCPToolRegistry.register (m : RegistryState) (tool : MCPTool)
    (metadata : ToolMetadata) : RegistryState :=
  mapSet m tool.name
    { tool := tool,
      metadata :=
        { category := metadata.category, tags := metadata.tags,
          enabled := metadata.enabled.getD true } }

/-- `MCPToolRegistry.get` (registry.ts lines 195-198): the tool, or `null`
both when the name is unknown and when the registration is disabled. -/
def MCPToolRegistry.get (m : RegistryState) (name : String) : Option MCPTool :=
  match mapGet m name with
  | some registration => if registration.metadata.enabled then some registration.tool else none
  | none => none

/-- `MCPToolRegistry.has`. -/
def MCPToolRegistry.has (m : RegistryState) (name : String) : Bool :=
  match mapGet m name with
  | some registration => registration.metadata.enabled
  | none => false

/-- `MCPToolRegistry.listDefinitions` (registry.ts lines 204-212): the
definitions of the enabled registrations, in registration order. Only the
name and schema of a definition are modelled. -/
def MCPToolRegistry.listDefinitions (m : RegistryState) : List (String × MCPToolSchema) :=
  m.filterMap fun p =>
    if p.2.metadata.enabled then some (p.2.tool.name, p.2.tool.inputSchema) else none

/-- `MCPToolRegistry.setEnabled` (registry.ts lines 226-231): toggle the
flag of an existing registration, leaving everything else untouched (no-op
on an unknown name). -/
def MCPToolRegistry.setEnabled (m : RegistryState) (name : String) (enabled : Bool) :
    RegistryState :=
  m.map fun p =>
    if p.1 == name then
      (p.1, { p.2 with metadata := { p.2.metadata with enabled := enabled } })
    else p

/-! ## The dispatcher (mcp-tools-manager.ts, `MCPToolsManager.executeTool`) -/

/-- The manager state: its `initialized` flag, the (module-global)
`mcpRegistry` it dispatches through, and the availability of the live
page/context it injects. -/
structure ManagerState where
  initialized : Bool
  registry : RegistryState
  pageAvail : Bool
  ctxAvail : Bool

/-- The success value `executeTool` resolves with. `data` (`result._meta`)
is omitted. -/
structure ExecSuccess where
  success : Bool
  message : String
deriving DecidableEq, Repr

/-- `result.content[0]?.text || fallback` (JavaScript `||`: an undefined or
empty text falls back). -/
def headTextOr (r : MCPToolResult) (fallback : String) : String :=
  match r.content.head? with
  | some c => if c.text == "" then fallback else c.text
  | none => fallback

/-- `MCPToolsManager.executeTool` (mcp-tools-manager.ts lines 64-85): throws
when the manager is not initialized, throws `Tool not found` when the
registry lookup returns null (unknown or disabled name), runs the tool, and
rethrows any error result as an exception; only a non-error result is
returned as a success value. Thrown exceptions are the `.error` branch. -/
def MCPToolsManager.executeTool (st : ManagerState) (name : String) (args : Args) :
    Except String ExecSuccess :=
  if !st.initialized then
    .error "MCPToolsManager not initialized. Call initialize() first."
  else
    match MCPToolRegistry.get st.registry name with
    | none => .error ("Tool not found: " ++ name)
    | some tool =>
      match BaseMCPTool.execute tool.inputSchema tool.impl args st.pageAvail st.ctxAvail with
      | .error e => .error e
      | .ok result =>
        if result.isError then
          .error (headTextOr result "Tool execution failed")
        else
          .ok { success := true, message := headTextOr result "Tool executed successfully" }

/-! ## C1: the dispatcher-never-throws contract -/

/-- The `ClickTool` instance as registered: its real `_execute` body drives
the browser, which is outside the model; the body is irrelevant to the
claims below (they either never reach it or quantify over every body). -/
def clickTool : MCPTool :=
  { name := "browser_click", inputSchema := clickSchema,
    impl := fun _ => .ok (textResult "Clicked on element") }

/-- An initialized manager whose registry holds `browser_click`, with a live
page and context. -/
def cexManager : ManagerState :=
  { initialized := true,
    registry := MCPToolRegistry.register [] clickTool { category := some "interaction" },
    pageAvail := true, ctxAvail := true }

/-- Claim C1 (counterexample): dispatching through
`MCPToolsManager.executeTool` does propagate an exception for an unknown
tool name — the call throws `Tool not found: ...` instead of returning a
`ToolResult`, on an initialized manager with a live page and context. -/
theorem C1_executeTool_throws_counterexample :
    MCPToolsManager.executeTool cexManager "nonexistent_tool" [] =
      .error "Tool not found: nonexistent_tool" := rfl

/-- Claim C1 (amended): the never-throws boundary is `BaseMCPTool.execute`,
not the manager. For every schema, tool body, argument object and
page/context availability, `BaseMCPTool.execute` returns a `ToolResult`
(it never propagates an exception), and a body that throws mid-execution is
caught and converted to an `isError` result; `MCPToolsManager.executeTool`,
by contrast, rethrows: unknown or disabled names, an uninitialized manager
and error results surface as exceptions to its caller. -/
theorem C1_execute_never_throws_amended (schema : MCPToolSchema) (impl : ToolImpl)
    (args : Args) (pageAvail ctxAvail : Bool) :
    (∃ r, BaseMCPTool.execute schema impl args pageAvail ctxAvail = .ok r) ∧
    (∀ e, impl args = .error e →
      (validateArguments schema args).valid = true →
      pageAvail = true → ctxAvail = true →
      BaseMCPTool.execute schema impl args pageAvail ctxAvail =
        .ok (errorResult ("Tool execution failed: " ++ e))) := by
  constructor
  · cases hv : (validateArguments schema args).valid with
    | false =>
      exact ⟨errorResult ("Argument validation failed: " ++
        String.intercalate ", " (validateArguments schema args).errors),
        by simp [BaseMCPTool.execute, hv]⟩
    | true =>
      cases hp : pageAvail && ctxAvail with
      | false =>
        exact ⟨errorResult "No browser page/context available",
          by simp [BaseMCPTool.execute, hv, hp]⟩
      | true =>
        cases himpl : impl args with
        | ok r => exact ⟨r, by simp [BaseMCPTool.execute, hv, hp, himpl]⟩
        | error e =>
          exact ⟨errorResult ("Tool execution failed: " ++ e),
            by simp [BaseMCPTool.execute, hv, hp, himpl]⟩
  · intro e himpl hv hp hc
    simp [BaseMCPTool.execute, hv, hp, hc, himpl]

/-- Claim C1 (witness): a tool body that throws `boom` on an empty schema
with a live page/context is converted to an error `ToolResult` by
`BaseMCPTool.execute`. -/
theorem C1_execute_never_throws_witness :
    BaseMCPTool.execute { properties := [], required := [] }
        (fun _ => .error "boom") [] true true =
      .ok (errorResult "Tool execution failed: boom") := by
  have h := C1_execute_never_throws_amended { properties := [], required := [] }
    (fun _ => .error "boom") [] true true
  exact h.2 "boom" rfl (by decide) rfl rfl

/-! ## C3: disabled tools are invisible -/

/-- Registry well-formedness: every registration is stored under its own
definition name (which `register` guarantees, keying the map by
`tool.definition.name`). -/
def RegistryWF (m : RegistryState) : Prop :=
  ∀ p ∈ m, p.2.tool.name = p.1

theorem setEnabled_mapGet (m : RegistryState) (name : String) (b : Bool) :
    mapGet (MCPToolRegistry.setEnabled m name b) name =
      (mapGet m name).map
        fun r => { r with metadata := { r.metadata with enabled := b } } := by
  have hpred : ((fun p : String × ToolRegistration => p.1 == name) ∘
      (fun p : String × ToolRegistration =>
        if p.1 == name then
          (p.1, { p.2 with metadata := { p.2.metadata with enabled := b } })
        else p)) = fun p : String × ToolRegistration => p.1 == name := by
    funext q
    by_cases h : q.1 = name <;> simp [h]
  unfold MCPToolRegistry.setEnabled mapGet
  rw [List.find?_map, hpred]
  cases hf : m.find? (fun p => p.1 == name) with
  | none => rfl
  | some q =>
    have hq : q.1 = name := by simpa using List.find?_some hf
    simp [hq]

theorem mem_listDefinitions (m : RegistryState) (d : String × MCPToolSchema) :
    d ∈ MCPToolRegistry.listDefinitions m ↔
      ∃ p ∈ m, p.2.metadata.enabled = true ∧ d = (p.2.tool.name, p.2.tool.inputSchema) := by
  simp only [MCPToolRegistry.listDefinitions, List.mem_filterMap]
  constructor
  · rintro ⟨p, hp, hd⟩
    by_cases h : p.2.metadata.enabled = true
    · exact ⟨p, hp, h, by simp [h] at hd; exact hd.symm⟩
    · simp [h] at hd
  · rintro ⟨p, hp, hen, rfl⟩
    exact ⟨p, hp, by simp [hen]⟩

/-- Claim C3: disabled is equivalent to invisible. For a well-formed
registry and any registered name: after `setEnabled(name, false)`, `get`
returns null exactly as it does for an unknown name, `listDefinitions`
omits that definition, executing the name reports `Tool not found`, the
registration itself is retained with only its flag flipped, and
`setEnabled(name, true)` makes the tool visible to `get` and
`listDefinitions` again. -/
theorem C3_disabled_invisible (m : RegistryState) (name : String) (reg : ToolRegistration)
    (hwf : RegistryWF m) (hlookup : mapGet m name = some reg) :
    (MCPToolRegistry.get (MCPToolRegistry.setEnabled m name false) name = none) ∧
    (∀ other, mapGet m other = none → MCPToolRegistry.get m other = none) ∧
    (∀ d ∈ MCPToolRegistry.listDefinitions (MCPToolRegistry.setEnabled m name false),
      d.1 ≠ name) ∧
    (∀ args pageAvail ctxAvail,
      MCPToolsManager.executeTool
          { initialized := true, registry := MCPToolRegistry.setEnabled m name false,
            pageAvail := pageAvail, ctxAvail := ctxAvail } name args =
        .error ("Tool not found: " ++ name)) ∧
    (mapGet (MCPToolRegistry.setEnabled m name false) name =
      some { reg with metadata := { reg.metadata with enabled := false } }) ∧
    (MCPToolRegistry.get
        (MCPToolRegistry.setEnabled (MCPToolRegistry.setEnabled m name false) name true)
        name = some reg.tool) ∧
    (∃ d ∈ MCPToolRegistry.listDefinitions
        (MCPToolRegistry.setEnabled (MCPToolRegistry.setEnabled m name false) name true),
      d.1 = name) := by
  have hget : MCPToolRegistry.get (MCPToolRegistry.setEnabled m name false) name = none := by
    simp [MCPToolRegistry.get, setEnabled_mapGet, hlookup]
  refine ⟨hget, ?_, ?_, ?_, ?_, ?_, ?_⟩
  · intro other hother
    simp [MCPToolRegistry.get, hother]
  · intro d hd
    rw [mem_listDefinitions] at hd
    obtain ⟨p, hp, hen, rfl⟩ := hd
    obtain ⟨q, hq, rfl⟩ := List.mem_map.mp hp
    cases h : q.1 == name with
    | true => simp [h] at hen
    | false =>
      simp only [h, Bool.false_eq_true, ite_false]
      have := hwf q hq
      simp only [this]
      intro hcontra
      rw [hcontra] at h
      simp at h
  · intro args pageAvail ctxAvail
    simp [MCPToolsManager.executeTool, hget]
  · simp [setEnabled_mapGet, hlookup]
  · simp [MCPToolRegistry.get, setEnabled_mapGet, hlookup]
  · obtain ⟨pr, hfind⟩ : ∃ pr, (m.find? fun p => p.1 == name) = some pr := by
      cases hf : m.find? fun p => p.1 == name with
      | none => simp [mapGet, hf] at hlookup
      | some pr => exact ⟨pr, rfl⟩
    have hpr_mem : pr ∈ m := List.mem_of_find?_eq_some hfind
    have hpr_key : (pr.1 == name) = true := by simpa using List.find?_some hfind
    have hpr_reg : pr.2 = reg := by
      simp [mapGet, hfind] at hlookup
      exact hlookup
    refine ⟨(pr.2.tool.name, pr.2.tool.inputSchema), ?_, ?_⟩
    · rw [mem_listDefinitions]
      refine ⟨(pr.1, { pr.2 with metadata := { pr.2.metadata with enabled := true } }),
        ?_, rfl, rfl⟩
      have : (pr.1, { pr.2 with metadata := { pr.2.metadata with enabled := true } }) =
          (fun p : String × ToolRegistration =>
            if p.1 == name then
              (p.1, { p.2 with metadata := { p.2.metadata with enabled := true } })
            else p)
          ((fun p : String × ToolRegistration =>
            if p.1 == name then
              (p.1, { p.2 with metadata := { p.2.metadata with enabled := false } })
            else p) pr) := by
        simp [hpr_key]
      rw [MCPToolRegistry.setEnabled, MCPToolRegistry.setEnabled, List.map_map, this]
      exact List.mem_map_of_mem _ hpr_mem
    · have := hwf pr hpr_mem
      rw [this]
      exact eq_of_beq hpr_key

/-- Claim C3 (witness): with only `browser_click` registered, disabling it
makes `get` return null, makes execution report `Tool not found`, and
re-enabling restores `get`. -/
theorem C3_disabled_invisible_witness :
    MCPToolRegistry.get
        (MCPToolRegistry.setEnabled cexManager.registry "browser_click" false)
        "browser_click" = none ∧
    MCPToolsManager.executeTool
        { initialized := true,
          registry := MCPToolRegistry.setEnabled cexManager.registry "browser_click" false,
          pageAvail := true, ctxAvail := true } "browser_click" [] =
      .error "Tool not found: browser_click" ∧
    MCPToolRegistry.get
        (MCPToolRegistry.setEnabled
          (MCPToolRegistry.setEnabled cexManager.registry "browser_click" false)
          "browser_click" true)
        "browser_click" = some clickTool := by
  have h := C3_disabled_invisible cexManager.registry "browser_click"
    { tool := clickTool,
      metadata := { category := some "interaction", tags := [], enabled := true } }
    (by
      intro p hp
      simp [cexManager, MCPToolRegistry.register, mapSet, clickTool] at hp
      rw [hp])
    rfl
  exact ⟨h.1, h.2.2.2.1 [] true true, h.2.2.2.2.2.1⟩

/-! ## C4: login-state classification (human-in-loop-login.ts,
`HumanInLoopLogin.checkIfLoggedIn`) -/

/-- `LOGIN_SELECTORS`: markers of the login page. -/
def LOGIN_SELECTORS : List String :=
  [ "input[type=\"email\"]",
    "input[type=\"password\"]",
    "input[name=\"email\"]",
    "input[name=\"pass\"]",
    "[data-testid=\"royal_email\"]" ]

/-- `LOGGED_IN_SELECTORS`: markers of an authenticated page. -/
def LOGGED_IN_SELECTORS : List String :=
  [ "[aria-label*=\"Account\"]",
    "[data-testid=\"bluebar_profile_root\"]",
    "a[href*=\"/me\"][role=\"link\"]",
    "[data-visualcompletion=\"ignore-dynamic\"] svg[aria-label=\"Account\"]",
    "[role=\"complementary\"]",
    "[role=\"main\"]",
    "[aria-label*=\"Messenger\"]" ]

/-- A page snapshot, as probed by `page.$(selector)`: `some true` when the
selector matches an element, `some false` when it matches nothing, `none`
when the probe itself throws (which both selector loops catch and skip). -/
abbrev PageProbe := String → Option Bool

/-- One selector loop of `checkIfLoggedIn`: returns true at the first
selector whose probe resolves to an element, skipping probes that return
null or throw. -/
def scanSelectors (probe : PageProbe) : List String → Bool
  | [] => false
  | s :: rest => if probe s = some true then true else scanSelectors probe rest

/-- `HumanInLoopLogin.checkIfLoggedIn` (part_001 lines 267-292 and
human-in-loop-login.ts lines 132-180): false when no page is open;
otherwise false as soon as any login-page selector matches, else true if
any logged-in selector matches, else false. -/
def HumanInLoopLogin.checkIfLoggedIn (page : Option PageProbe) : Bool :=
  match page with
  | none => false
  | some probe =>
    if scanSelectors probe LOGIN_SELECTORS then false
    else scanSelectors probe LOGGED_IN_SELECTORS

theorem scanSelectors_eq_true_iff (probe : PageProbe) (l : List String) :
    scanSelectors probe l = true ↔ ∃ s ∈ l, probe s = some true := by
  induction l with
  | nil => simp [scanSelectors]
  | cons s rest ih =>
    by_cases h : probe s = some true
    · simp only [scanSelectors, h, if_pos]
      exact ⟨fun _ => ⟨s, List.mem_cons_self s rest, h⟩, fun _ => trivial⟩
    · simp only [scanSelectors, h, if_neg, ite_false]
      rw [ih]
      constructor
      · rintro ⟨x, hx, hpx⟩
        exact ⟨x, List.mem_cons_of_mem s hx, hpx⟩
      · rintro ⟨x, hx, hpx⟩
        rcases List.mem_cons.mp hx with hx | hx
        · subst hx; exact absurd hpx h
        · exact ⟨x, hx, hpx⟩

/-- Claim C4: the login-state classifier probes the login-indicator list
first and short-circuits — any login-indicator match classifies the page as
not logged in even when a logged-in indicator also matches; a snapshot
matching neither list is classified not logged in (fail-closed); and the
classifier reports logged-in exactly when no login indicator matches and at
least one logged-in indicator does. -/
theorem C4_login_classifier (probe : PageProbe) :
    (∀ s ∈ LOGIN_SELECTORS, probe s = some true →
      HumanInLoopLogin.checkIfLoggedIn (some probe) = false) ∧
    ((∀ s ∈ LOGIN_SELECTORS, probe s ≠ some true) →
     (∀ s ∈ LOGGED_IN_SELECTORS, probe s ≠ some true) →
      HumanInLoopLogin.checkIfLoggedIn (some probe) = false) ∧
    (HumanInLoopLogin.checkIfLoggedIn (some probe) = true ↔
      ((∀ s ∈ LOGIN_SELECTORS, probe s ≠ some true) ∧
       (∃ s ∈ LOGGED_IN_SELECTORS, probe s = some true))) := by
  refine ⟨?_, ?_, ?_⟩
  · intro s hs hps
    have : scanSelectors probe LOGIN_SELECTORS = true :=
      (scanSelectors_eq_true_iff probe LOGIN_SELECTORS).mpr ⟨s, hs, hps⟩
    simp [HumanInLoopLogin.checkIfLoggedIn, this]
  · intro h1 h2
    have hl : scanSelectors probe LOGIN_SELECTORS = false := by
      rw [Bool.eq_false_iff]
      intro hc
      obtain ⟨s, hs, hps⟩ := (scanSelectors_eq_true_iff probe LOGIN_SELECTORS).mp hc
      exact h1 s hs hps
    have hli : scanSelectors probe LOGGED_IN_SELECTORS = false := by
      rw [Bool.eq_false_iff]
      intro hc
      obtain ⟨s, hs, hps⟩ := (scanSelectors_eq_true_iff probe LOGGED_IN_SELECTORS).mp hc
      exact h2 s hs hps
    simp [HumanInLoopLogin.checkIfLoggedIn, hl, hli]
  · constructor
    · intro h
      cases hl : scanSelectors probe LOGIN_SELECTORS with
      | true => simp [HumanInLoopLogin.checkIfLoggedIn, hl] at h
      | false =>
        refine ⟨?_, ?_⟩
        · intro s hs hps
          have : scanSelectors probe LOGIN_SELECTORS = true :=
            (scanSelectors_eq_true_iff probe LOGIN_SELECTORS).mpr ⟨s, hs, hps⟩
          rw [this] at hl
          exact Bool.noConfusion hl
        · have : scanSelectors probe LOGGED_IN_SELECTORS = true := by
            simpa [HumanInLoopLogin.checkIfLoggedIn, hl] using h
          exact (scanSelectors_eq_true_iff probe LOGGED_IN_SELECTORS).mp this
    · rintro ⟨h1, s, hs, hps⟩
      have hl : scanSelectors probe LOGIN_SELECTORS = false := by
        rw [Bool.eq_false_iff]
        intro hc
        obtain ⟨x, hx, hpx⟩ := (scanSelectors_eq_true_iff probe LOGIN_SELECTORS).mp hc
        exact h1 x hx hpx
      have hli : scanSelectors probe LOGGED_IN_SELECTORS = true :=
        (scanSelectors_eq_true_iff probe LOGGED_IN_SELECTORS).mpr ⟨s, hs, hps⟩
      simp [HumanInLoopLogin.checkIfLoggedIn, hl, hli]

/-- Claim C4 (witness): a snapshot matching every selector in both lists is
classified not logged in (login indicators win), and a snapshot matching
nothing is classified not logged in (fail-closed). -/
theorem C4_login_classifier_witness :
    HumanInLoopLogin.checkIfLoggedIn (some (fun _ => some true)) = false ∧
    HumanInLoopLogin.checkIfLoggedIn (some (fun _ => some false)) = false := by
  have h1 := C4_login_classifier (fun _ => some true)
  have h2 := C4_login_classifier (fun _ => some false)
  exact ⟨h1.1 "input[type=\"email\"]" (by simp [LOGIN_SELECTORS]) rfl,
    h2.2.1 (fun s _ => by simp) (fun s _ => by simp)⟩

/-! ## C5: resilient locator resolution (form.ts,
`FillFormTool.resolveFieldLocator`) -/

/-- One locator factory, identified by the strategy and the identifier (or
the caller-supplied structural selector) it closes over. -/
inductive LocFactory where
  | labelExact (id_ : String)
  | labelFuzzy (id_ : String)
  | placeholderExact (id_ : String)
  | placeholderFuzzy (id_ : String)
  | fallback (sel : String)
deriving DecidableEq, Repr

/-- `Array.from(new Set(xs))`: de-duplication keeping the first occurrence
of each element, in order. -/
def dedupFirst (l : List String) : List String :=
  go [] l
where
  /-- Worker carrying the set of already-seen elements. -/
  go (seen : List String) : List String → List String
    | [] => []
    | x :: xs => if x ∈ seen then go seen xs else x :: go (x :: seen) xs

/-- `String.prototype.trim`: strip whitespace from both ends (defined over
the character list so that it evaluates inside the kernel). -/
def jsTrim (s : String) : String :=
  String.mk
    (((s.toList.dropWhile Char.isWhitespace).reverse.dropWhile Char.isWhitespace).reverse)

/-- The identifier cleanup of `resolveFieldLocator` (form.ts lines
192-198): keep the actual strings, drop blank ones, de-duplicate. -/
def uniqueIdentifiers (identifiers : List (Option String)) : List String :=
  dedupFirst
    (((identifiers.filterMap fun x => x).filter fun s => decide (0 < (jsTrim s).length)))

/-- The factory list of `resolveFieldLocator` (form.ts lines 200-211): for
each identifier, exact label, fuzzy label, exact placeholder, fuzzy
placeholder; then the caller-supplied structural fallbacks. -/
def buildFactories (ids : List String) (fallbacks : List String) : List LocFactory :=
  (ids.flatMap fun i =>
    [LocFactory.labelExact i, LocFactory.labelFuzzy i,
     LocFactory.placeholderExact i, LocFactory.placeholderFuzzy i]) ++
  fallbacks.map LocFactory.fallback

/-- The resolution loop (form.ts lines 213-221) over an oracle saying which
factories resolve within their `waitFor` timeout: the first resolving
factory, paired with the number of factories invoked. -/
def resolveScan (resolves : LocFactory → Bool) : List LocFactory → Option LocFactory × Nat
  | [] => (none, 0)
  | f :: rest =>
    if resolves f then (some f, 1)
    else
      let r := resolveScan resolves rest
      (r.1, r.2 + 1)

/-- `FillFormTool.resolveFieldLocator` (form.ts lines 186-225): the first
factory whose locator resolves, or a single aggregated error naming every
identifier that was tried. -/
def FillFormTool.resolveFieldLocator (resolves : LocFactory → Bool)
    (identifiers : List (Option String)) (fallbacks : List String) :
    Except String LocFactory :=
  let uids := uniqueIdentifiers identifiers
  let factories := buildFactories uids fallbacks
  match (resolveScan resolves factories).1 with
  | some f => .ok f
  | none =>
    .error ("Unable to locate field using " ++
      (if 0 < uids.length then String.intercalate ", " uids
       else "no accessible identifiers"))

theorem dedupFirst_go_spec (l : List String) : ∀ seen : List String,
    (∀ x, x ∈ dedupFirst.go seen l ↔ (x ∈ l ∧ x ∉ seen)) ∧ (dedupFirst.go seen l).Nodup := by
  induction l with
  | nil => intro seen; simp [dedupFirst.go]
  | cons y ys ih =>
    intro seen
    by_cases hy : y ∈ seen
    · constructor
      · intro x
        rw [dedupFirst.go, if_pos hy, ((ih seen).1 x)]
        constructor
        · rintro ⟨hx, hxs⟩; exact ⟨List.mem_cons_of_mem y hx, hxs⟩
        · rintro ⟨hx, hxs⟩
          rcases List.mem_cons.mp hx with rfl | hx
          · exact absurd hy hxs
          · exact ⟨hx, hxs⟩
      · rw [dedupFirst.go, if_pos hy]
        exact (ih seen).2
    · constructor
      · intro x
        rw [dedupFirst.go, if_neg hy]
        rw [List.mem_cons, ((ih (y :: seen)).1 x)]
        constructor
        · rintro (rfl | ⟨hx, hxs⟩)
          · exact ⟨List.mem_cons_self _ _, by assumption⟩
          · exact ⟨List.mem_cons_of_mem y hx, fun hc => hxs (List.mem_cons_of_mem y hc)⟩
        · rintro ⟨hx, hxs⟩
          rcases List.mem_cons.mp hx with rfl | hx
          · exact Or.inl rfl
          · by_cases hxy : x = y
            · exact Or.inl hxy
            · exact Or.inr ⟨hx, fun hc => by
                rcases List.mem_cons.mp hc with h | h
                · exact hxy h
                · exact hxs h⟩
      · rw [dedupFirst.go, if_neg hy]
        refine List.nodup_cons.mpr ⟨?_, (ih (y :: seen)).2⟩
        intro hc
        exact (((ih (y :: seen)).1 y).mp hc).2 (List.mem_cons_self y seen)

theorem mem_dedupFirst (l : List String) (x : String) : x ∈ dedupFirst l ↔ x ∈ l := by
  rw [dedupFirst, (dedupFirst_go_spec l []).1 x]
  simp

theorem nodup_dedupFirst (l : List String) : (dedupFirst l).Nodup :=
  (dedupFirst_go_spec l []).2

theorem resolveScan_first_success (resolves : LocFactory → Bool) (l : List LocFactory) :
    ∀ i f, l.get? i = some f → resolves f = true →
      (∀ j g, j < i → l.get? j = some g → resolves g = false) →
      resolveScan resolves l = (some f, i + 1) := by
  induction l with
  | nil => intro i f h; simp at h
  | cons x rest ih =>
    intro i f hget hres hbefore
    cases i with
    | zero =>
      simp only [List.get?] at hget
      cases hget
      simp [resolveScan, hres]
    | succ k =>
      have hx : resolves x = false := hbefore 0 x (Nat.succ_pos k) rfl
      simp only [List.get?] at hget
      have := ih k f hget hres fun j g hj hg =>
        hbefore (j + 1) g (Nat.succ_lt_succ hj) hg
      simp [resolveScan, hx, this]

theorem resolveScan_exhausted (resolves : LocFactory → Bool) (l : List LocFactory)
    (h : ∀ f ∈ l, resolves f = false) : (resolveScan resolves l).1 = none := by
  induction l with
  | nil => rfl
  | cons x rest ih =>
    have hx := h x (List.mem_cons_self x rest)
    simp only [resolveScan, hx, Bool.false_eq_true, ite_false]
    exact ih fun f hf => h f (List.mem_cons_of_mem x hf)

/-- Claim C5: locator resolution de-duplicates and blank-filters the
caller's identifiers, builds factories in priority order (the four
label/placeholder strategies per identifier, then the caller-supplied
structural fallbacks), returns the first factory that resolves having
invoked none after it, and when every factory is exhausted fails with one
aggregated error naming all identifiers that were tried. -/
theorem C5_locator_resolution (resolves : LocFactory → Bool)
    (identifiers : List (Option String)) (fallbacks : List String) :
    (uniqueIdentifiers identifiers).Nodup ∧
    (∀ s, s ∈ uniqueIdentifiers identifiers ↔
      (some s ∈ identifiers ∧ 0 < (jsTrim s).length)) ∧
    (∃ front, buildFactories (uniqueIdentifiers identifiers) fallbacks =
        front ++ fallbacks.map LocFactory.fallback ∧
      ∀ s ∈ uniqueIdentifiers identifiers,
        List.Sublist [LocFactory.labelExact s, LocFactory.labelFuzzy s,
          LocFactory.placeholderExact s, LocFactory.placeholderFuzzy s] front) ∧
    (∀ i f, (buildFactories (uniqueIdentifiers identifiers) fallbacks).get? i = some f →
      resolves f = true →
      (∀ j g, j < i →
        (buildFactories (uniqueIdentifiers identifiers) fallbacks).get? j = some g →
        resolves g = false) →
      FillFormTool.resolveFieldLocator resolves identifiers fallbacks = .ok f ∧
      (resolveScan resolves (buildFactories (uniqueIdentifiers identifiers) fallbacks)).2 =
        i + 1) ∧
    ((∀ f ∈ buildFactories (uniqueIdentifiers identifiers) fallbacks, resolves f = false) →
      FillFormTool.resolveFieldLocator resolves identifiers fallbacks =
        .error ("Unable to locate field using " ++
          (if 0 < (uniqueIdentifiers identifiers).length then
            String.intercalate ", " (uniqueIdentifiers identifiers)
          else "no accessible identifiers"))) := by
  refine ⟨nodup_dedupFirst _, ?_, ?_, ?_, ?_⟩
  · intro s
    rw [uniqueIdentifiers, mem_dedupFirst, List.mem_filter, List.mem_filterMap]
    constructor
    · rintro ⟨⟨a, ha, rfl⟩, hlen⟩
      exact ⟨ha, by simpa using hlen⟩
    · rintro ⟨ha, hlen⟩
      exact ⟨⟨some s, ha, rfl⟩, by simpa using hlen⟩
  · refine ⟨(uniqueIdentifiers identifiers).flatMap fun i =>
      [LocFactory.labelExact i, LocFactory.labelFuzzy i,
       LocFactory.placeholderExact i, LocFactory.placeholderFuzzy i], rfl, ?_⟩
    intro s hs
    obtain ⟨l1, l2, heq⟩ := List.append_of_mem hs
    rw [heq, List.flatMap_append, List.flatMap_cons]
    exact List.Sublist.trans (List.sublist_append_left _ _)
      (List.sublist_append_right _ _)
  · intro i f hget hres hbefore
    have := resolveScan_first_success resolves
      (buildFactories (uniqueIdentifiers identifiers) fallbacks) i f hget hres hbefore
    constructor
    · simp [FillFormTool.resolveFieldLocator, this]
    · rw [this]
  · intro h
    have := resolveScan_exhausted resolves
      (buildFactories (uniqueIdentifiers identifiers) fallbacks) h
    simp only [FillFormTool.resolveFieldLocator]
    rw [this]

/-- Claim C5 (witness): with identifiers `[Email, "", Email, undefined]`
and one structural fallback, the identifiers de-duplicate to `[Email]`; if
exactly the exact-placeholder factory resolves, resolution returns it after
invoking three factories (the fuzzy-placeholder factory and the fallback
are never invoked); if nothing resolves, the aggregated error names the
tried identifier. -/
theorem C5_locator_resolution_witness :
    FillFormTool.resolveFieldLocator
        (fun f => f == LocFactory.placeholderExact "Email")
        [some "Email", some "", some "Email", none]
        ["input[name=\"Email\"]"] = .ok (LocFactory.placeholderExact "Email") ∧
    (resolveScan (fun f => f == LocFactory.placeholderExact "Email")
        (buildFactories
          (uniqueIdentifiers [some "Email", some "", some "Email", none])
          ["input[name=\"Email\"]"])).2 = 3 ∧
    FillFormTool.resolveFieldLocator (fun _ => false)
        [some "Email", some "", some "Email", none]
        ["input[name=\"Email\"]"] =
      .error "Unable to locate field using Email" := by
  have h1 := C5_locator_resolution
    (fun f => f == LocFactory.placeholderExact "Email")
    [some "Email", some "", some "Email", none] ["input[name=\"Email\"]"]
  have h2 := C5_locator_resolution (fun _ => false)
    [some "Email", some "", some "Email", none] ["input[name=\"Email\"]"]
  have hfl : buildFactories
      (uniqueIdentifiers [some "Email", some "", some "Email", none])
      ["input[name=\"Email\"]"] =
      [LocFactory.labelExact "Email", LocFactory.labelFuzzy "Email",
       LocFactory.placeholderExact "Email", LocFactory.placeholderFuzzy "Email",
       LocFactory.fallback "input[name=\"Email\"]"] := by decide
  obtain ⟨hok, hcount⟩ := h1.2.2.2.1 2 (LocFactory.placeholderExact "Email")
    (by rw [hfl]; decide) (by decide)
    (by
      intro j g hj hg
      rw [hfl] at hg
      interval_cases j
      · cases hg; decide
      · cases hg; decide)
  refine ⟨hok, hcount, ?_⟩
  have hexh := h2.2.2.2.2 (fun f _ => rfl)
  have hmsg : ("Unable to locate field using " ++
      (if 0 < (uniqueIdentifiers [some "Email", some "", some "Email", none]).length then
        String.intercalate ", "
          (uniqueIdentifiers [some "Email", some "", some "Email", none])
      else "no accessible identifiers")) = "Unable to locate field using Email" := by
    decide
  rw [hmsg] at hexh
  exact hexh

/-! ## C6, C7: session restore (human-in-loop-login.ts,
`HumanInLoopLogin.restoreSession`) -/

/-- The mutable handle fields of `HumanInLoopLogin`: `this.context` and
`this.page` (`none` = null). -/
structure HLState where
  context : Option Unit
  page : Option Unit
deriving DecidableEq, Repr

/-- The outcomes of the external calls a `restoreSession` run would make,
fixed up front: which persisted artifacts exist (`fs.access` checks, which
cannot throw), whether `launchPersistentContext` resolves, whether the
read/parse/`addCookies` of `state.json` resolves, whether
`navigateToFacebook` reports success (it catches its own errors), and how
`checkIfLoggedIn` classifies the restored page. -/
structure RestoreEnv where
  cookiesExist : Bool
  stateExist : Bool
  launchOk : Bool
  readStateOk : Bool
  navOk : Bool
  loggedIn : Bool

/-- The observable outcome of a `restoreSession` run: the returned Boolean,
the handle fields afterwards, how many times `launchPersistentContext` was
called, and how many times `context.close()` was called on a live
context. -/
structure RestoreOutcome where
  result : Bool
  st : HLState
  launches : Nat
  ctxCloses : Nat
deriving DecidableEq, Repr

/-- `HumanInLoopLogin.restoreSession` (part_001 lines 377-438, identical in
control flow to human-in-loop-login.ts lines 224-334), as a branch-per-exit
interpreter over the call outcomes:
1. neither `cookies.json` nor `state.json` exists — `return false` before
   any launch, fields untouched;
2. the launch throws — the catch block runs `this.context?.close()` (the
   field still holds its previous value) and nulls both fields;
3. `state.json` exists but reading/parsing/applying it throws — catch:
   close the new context, null the fields;
4. navigation fails — close the context, null the fields, `return false`;
5. the page is not classified logged-in — same teardown, `return false`;
6. otherwise — `return true` with the live context and page retained. -/
def HumanInLoopLogin.restoreSession (st0 : HLState) (env : RestoreEnv) : RestoreOutcome :=
  if !env.cookiesExist && !env.stateExist then
    { result := false, st := st0, launches := 0, ctxCloses := 0 }
  else if !env.launchOk then
    { result := false, st := ⟨none, none⟩, launches := 1,
      ctxCloses := if st0.context.isSome then 1 else 0 }
  else if env.stateExist && !env.readStateOk then
    { result := false, st := ⟨none, none⟩, launches := 1, ctxCloses := 1 }
  else if !env.navOk then
    { result := false, st := ⟨none, none⟩, launches := 1, ctxCloses := 1 }
  else if !env.loggedIn then
    { result := false, st := ⟨none, none⟩, launches := 1, ctxCloses := 1 }
  else
    { result := true, st := ⟨some (), some ()⟩, launches := 1, ctxCloses := 0 }

/-- Claim C6: `restoreSession` with no persisted artifacts returns false
immediately — no browser launch happens and the context and page fields
remain null. -/
theorem C6_restore_no_artifacts (st0 : HLState) (env : RestoreEnv)
    (hc : env.cookiesExist = false) (hs : env.stateExist = false)
    (hctx : st0.context = none) (hpage : st0.page = none) :
    (HumanInLoopLogin.restoreSession st0 env).result = false ∧
    (HumanInLoopLogin.restoreSession st0 env).launches = 0 ∧
    (HumanInLoopLogin.restoreSession st0 env).st.context = none ∧
    (HumanInLoopLogin.restoreSession st0 env).st.page = none := by
  simp [HumanInLoopLogin.restoreSession, hc, hs, hctx, hpage]

/-- Claim C6 (witness): a fresh manager restoring from an empty profile
directory. -/
theorem C6_restore_no_artifacts_witness :
    (HumanInLoopLogin.restoreSession ⟨none, none⟩
      ⟨false, false, true, true, true, true⟩).result = false ∧
    (HumanInLoopLogin.restoreSession ⟨none, none⟩
      ⟨false, false, true, true, true, true⟩).launches = 0 ∧
    (HumanInLoopLogin.restoreSession ⟨none, none⟩
      ⟨false, false, true, true, true, true⟩).st.context = none ∧
    (HumanInLoopLogin.restoreSession ⟨none, none⟩
      ⟨false, false, true, true, true, true⟩).st.page = none :=
  C6_restore_no_artifacts ⟨none, none⟩ ⟨false, false, true, true, true, true⟩
    rfl rfl rfl rfl

/-- Claim C7: `restoreSession` returns true only when the restored page is
classified logged-in; any failing run that launched the browser closes the
context exactly once and leaves both handle fields null; a successful run
keeps the live context and page. -/
theorem C7_restore_teardown (st0 : HLState) (env : RestoreEnv)
    (hart : env.cookiesExist = true ∨ env.stateExist = true) :
    ((HumanInLoopLogin.restoreSession st0 env).result = true → env.loggedIn = true) ∧
    (env.launchOk = true → (HumanInLoopLogin.restoreSession st0 env).result = false →
      (HumanInLoopLogin.restoreSession st0 env).st.context = none ∧
      (HumanInLoopLogin.restoreSession st0 env).st.page = none ∧
      (HumanInLoopLogin.restoreSession st0 env).ctxCloses = 1) ∧
    ((HumanInLoopLogin.restoreSession st0 env).result = true →
      (HumanInLoopLogin.restoreSession st0 env).st.context = some () ∧
      (HumanInLoopLogin.restoreSession st0 env).st.page = some ()) := by
  rcases env with ⟨ce, se, lo, ro, no, li⟩
  cases ce <;> cases se <;> cases lo <;> cases ro <;> cases no <;> cases li <;>
    simp_all [HumanInLoopLogin.restoreSession]

/-- Claim C7 (witness): an expired session (artifacts present, launch and
navigation fine, page not logged in) returns false with the context closed
and both fields null; the same run with a logged-in page returns true. -/
theorem C7_restore_teardown_witness :
    (HumanInLoopLogin.restoreSession ⟨none, none⟩
        ⟨true, true, true, true, true, false⟩).st.context = none ∧
    (HumanInLoopLogin.restoreSession ⟨none, none⟩
        ⟨true, true, true, true, true, false⟩).st.page = none ∧
    (HumanInLoopLogin.restoreSession ⟨none, none⟩
        ⟨true, true, true, true, true, false⟩).ctxCloses = 1 ∧
    (HumanInLoopLogin.restoreSession ⟨none, none⟩
        ⟨true, true, true, true, true, true⟩).result = true := by
  have h1 := C7_restore_teardown ⟨none, none⟩ ⟨true, true, true, true, true, false⟩
    (Or.inl rfl)
  obtain ⟨hc, hp, hcl⟩ := h1.2.1 rfl (by decide)
  exact ⟨hc, hp, hcl, by decide⟩

/-! ## C8: persistence failure does not discard a confirmed login
(human-in-loop-login.ts, `startLogin` / `saveSession`) -/

/-- Outcomes of the external calls a `startLogin` run makes: per-attempt
navigation success, the `checkIfLoggedIn` classification at each elapsed
polling time (milliseconds), and the success of each step of
`saveSession`. -/
structure StartEnv where
  navAttempt : Nat → Bool
  loggedInAt : Nat → Bool
  mkdirOk : Bool
  cookiesReadOk : Bool
  cookiesWriteOk : Bool
  stateReadOk : Bool
  stateWriteOk : Bool

/-- `HumanInLoopLogin.navigateToFacebook` (part_001 lines 294-325): up to 3
attempts; true as soon as one attempt loads the page (with a matching
title), false after 3 failures. -/
def HumanInLoopLogin.navigateToFacebook (attemptOk : Nat → Bool) : Bool :=
  attemptOk 1 || attemptOk 2 || attemptOk 3

/-- The polling loop of `waitForManualLogin`: while `elapsed < 180000`,
probe; on success return true, else sleep 2000 and continue. The fuel
argument only bounds the recursion and is chosen larger than the 90
iterations the ceiling admits, so the fuel-exhausted branch is
unreachable. -/
def waitForManualLoginLoop (probe : Nat → Bool) : Nat → Nat → Bool
  | 0, _ => false
  | fuel + 1, elapsed =>
    if elapsed < 180000 then
      if probe elapsed then true
      else waitForManualLoginLoop probe fuel (elapsed + 2000)
    else false

/-- `HumanInLoopLogin.waitForManualLogin` (part_001 lines 236-265):
3-minute ceiling, 2-second poll interval, starting at zero elapsed. -/
def HumanInLoopLogin.waitForManualLogin (probe : Nat → Bool) : Bool :=
  waitForManualLoginLoop probe 91 0

/-- The body of the try block of `saveSession` (part_001 lines 330-347):
mkdir, read the cookies, write `cookies.json`, read the storage state,
write `state.json`; each step may throw. -/
def saveSessionTry (env : StartEnv) : Except String Unit :=
  if !env.mkdirOk then .error "mkdir failed"
  else if !env.cookiesReadOk then .error "context.cookies failed"
  else if !env.cookiesWriteOk then .error "write cookies.json failed"
  else if !env.stateReadOk then .error "context.storageState failed"
  else if !env.stateWriteOk then .error "write state.json failed"
  else .ok ()

/-- `HumanInLoopLogin.saveSession` (part_001 lines 327-351): the whole body
is wrapped in try/catch; a thrown error is logged (`console.error`) and
swallowed. Returns whether an error was logged; never propagates. -/
def HumanInLoopLogin.saveSession (env : StartEnv) : Bool :=
  match saveSessionTry env with
  | .ok _ => false
  | .error _ => true

/-- The observable outcome of a `startLogin` run. -/
structure StartOutcome where
  result : Bool
  saveErrorLogged : Bool
deriving DecidableEq, Repr

/-- `HumanInLoopLogin.startLogin` (part_001 lines 192-234): lock-file
cleanup is best-effort and ignored; after launch and page pickup, return
false if navigation fails; otherwise poll for the manual login and, when it
is confirmed, save the session (whatever that save does) and return
true. -/
def HumanInLoopLogin.startLogin (env : StartEnv) : StartOutcome :=
  if !HumanInLoopLogin.navigateToFacebook env.navAttempt then
    { result := false, saveErrorLogged := false }
  else if HumanInLoopLogin.waitForManualLogin env.loggedInAt then
    { result := true, saveErrorLogged := HumanInLoopLogin.saveSession env }
  else
    { result := false, saveErrorLogged := false }

/-- Claim C8: a persistence I/O failure during session save is non-fatal to
the login result — when navigation succeeded and the login was confirmed,
`startLogin` returns true even though writing `cookies.json` or
`state.json` failed, and the error was caught and logged inside
`saveSession`. -/
theorem C8_save_failure_nonfatal (env : StartEnv)
    (hnav : HumanInLoopLogin.navigateToFacebook env.navAttempt = true)
    (hlogin : HumanInLoopLogin.waitForManualLogin env.loggedInAt = true)
    (hfail : env.cookiesWriteOk = false ∨ env.stateWriteOk = false) :
    (HumanInLoopLogin.startLogin env).result = true ∧
    (HumanInLoopLogin.startLogin env).saveErrorLogged = true := by
  rcases env with ⟨na, li, mk, cr, cw, sr, sw⟩
  constructor
  · simp [HumanInLoopLogin.startLogin, hnav, hlogin]
  · simp only [HumanInLoopLogin.startLogin, hnav, hlogin]
    cases mk <;> cases cr <;> cases cw <;> cases sr <;> cases sw <;>
      simp_all [HumanInLoopLogin.saveSession, saveSessionTry]

/-- Claim C8 (witness): login confirmed on the first poll, `cookies.json`
write fails — `startLogin` still returns true and the save error was
logged. -/
theorem C8_save_failure_nonfatal_witness :
    (HumanInLoopLogin.startLogin
      { navAttempt := fun _ => true, loggedInAt := fun _ => true,
        mkdirOk := true, cookiesReadOk := true, cookiesWriteOk := false,
        stateReadOk := true, stateWriteOk := true }).result = true ∧
    (HumanInLoopLogin.startLogin
      { navAttempt := fun _ => true, loggedInAt := fun _ => true,
        mkdirOk := true, cookiesReadOk := true, cookiesWriteOk := false,
        stateReadOk := true, stateWriteOk := true }).saveErrorLogged = true :=
  C8_save_failure_nonfatal _ rfl (by decide) (Or.inl rfl)

/-! ## C9: `HumanInLoopLogin.close` -/

/-- The state of the driver-side handles: whether the page and context have
been closed, and how many screenshots have been taken. -/
structure BrowserWorld where
  pageClosed : Bool
  ctxClosed : Bool
  screenshots : Nat
deriving DecidableEq, Repr

/-- `page.screenshot(...)`: rejects once the page has been closed (the
driver reports `Target page, context or browser has been closed`);
otherwise records one screenshot. -/
def pageScreenshot (w : BrowserWorld) : Except String BrowserWorld :=
  if w.pageClosed then .error "Target page, context or browser has been closed"
  else .ok { w with screenshots := w.screenshots + 1 }

/-- `context.close()`: closes the context and all its pages; resolves even
when already closed. -/
def contextClose (w : BrowserWorld) : BrowserWorld :=
  { w with ctxClosed := true, pageClosed := true }

/-- `HumanInLoopLogin.close` (part_001 lines 353-366, identical in
human-in-loop-login.ts lines 208-221): screenshot if the page field is set
(not wrapped in any try/catch), then close the context if the context field
is set. Neither field is reset. -/
def HumanInLoopLogin.close (st : HLState) (w : BrowserWorld) : Except String BrowserWorld :=
  match (if st.page.isSome then pageScreenshot w else .ok w) with
  | .error e => .error e
  | .ok w1 => .ok (if st.context.isSome then contextClose w1 else w1)

/-- Claim C9 (counterexample): `close()` is not idempotent. A first call on
a live session succeeds (one screenshot, context closed), but because the
fields are never reset, a second call attempts a screenshot on the closed
page and throws instead of completing. -/
theorem C9_close_second_call_throws :
    HumanInLoopLogin.close ⟨some (), some ()⟩ ⟨false, false, 0⟩ =
      .ok ⟨true, true, 1⟩ ∧
    HumanInLoopLogin.close ⟨some (), some ()⟩ ⟨true, true, 1⟩ =
      .error "Target page, context or browser has been closed" :=
  ⟨rfl, rfl⟩

/-- Claim C9 (amended): `close()` takes a final screenshot when the page
field is set and then closes the Context when the context field is set; the
screenshot is not best-effort (its failure propagates), so a second call
after a successful close throws — `close()` is safe to repeat only when the
page field is null. -/
theorem C9_close_amended (st : HLState) (w : BrowserWorld) :
    (st.page.isSome = true → st.context.isSome = true → w.pageClosed = false →
      HumanInLoopLogin.close st w =
        .ok { pageClosed := true, ctxClosed := true, screenshots := w.screenshots + 1 }) ∧
    (st.page.isSome = true → w.pageClosed = true →
      HumanInLoopLogin.close st w =
        .error "Target page, context or browser has been closed") ∧
    (st.page = none → ∃ w2, HumanInLoopLogin.close st w = .ok w2) := by
  refine ⟨?_, ?_, ?_⟩
  · intro hp hc hw
    simp [HumanInLoopLogin.close, hp, hc, pageScreenshot, hw, contextClose]
  · intro hp hw
    simp [HumanInLoopLogin.close, hp, pageScreenshot, hw]
  · intro hp
    cases hcs : st.context.isSome <;>
      simp [HumanInLoopLogin.close, hp, hcs]

/-- Claim C9 (witness): the amended behavior at a live session — first
close succeeds with a screenshot, second close throws — and at a torn-down
manager (fields null), where close is a safe no-op. -/
theorem C9_close_amended_witness :
    HumanInLoopLogin.close ⟨some (), some ()⟩ ⟨false, false, 5⟩ =
      .ok { pageClosed := true, ctxClosed := true, screenshots := 6 } ∧
    HumanInLoopLogin.close ⟨some (), some ()⟩ ⟨true, true, 6⟩ =
      .error "Target page, context or browser has been closed" ∧
    (∃ w2, HumanInLoopLogin.close ⟨none, none⟩ ⟨true, true, 6⟩ = .ok w2) := by
  have h1 := C9_close_amended ⟨some (), some ()⟩ ⟨false, false, 5⟩
  have h2 := C9_close_amended ⟨some (), some ()⟩ ⟨true, true, 6⟩
  have h3 := C9_close_amended ⟨none, none⟩ ⟨true, true, 6⟩
  exact ⟨h1.1 rfl rfl rfl, h2.2.1 rfl rfl, h3.2.2 rfl⟩

/-! ## C10: per-field resilience of the fill-form tool (form.ts,
`FillFormTool._execute`) -/

/-- One entry of the `fields` array. -/
structure Field where
  name : String
  type : String
  value : JValue

/-- Outcomes of the driver calls the fill-form body makes: which locator
factories resolve (shared with `resolveFieldLocator`), and whether each
element action resolves or throws. -/
structure FormOps where
  resolves : LocFactory → Bool
  fillOutcome : LocFactory → String → Except String Unit
  checkOutcome : LocFactory → Except String Unit
  uncheckOutcome : LocFactory → Except String Unit
  selectOutcome : LocFactory → JValue → Except String Unit

/-- `value !== undefined && value !== null ? String(value) : ""`. -/
def jsStringOrEmpty : JValue → String
  | .null => ""
  | v => jsString v

/-- The structural fallback selector of the textbox case (form.ts line 78). -/
def textboxFallbackSel (name : String) : String :=
  "input[name=\"" ++ name ++ "\"], textarea[name=\"" ++ name ++ "\"], [id=\"" ++ name ++ "\"]"

/-- The structural fallback selector of the checkbox case (form.ts line 91). -/
def checkboxFallbackSel (name : String) : String :=
  "input[type=\"checkbox\"][name=\"" ++ name ++ "\"], [id=\"" ++ name ++ "\"][type=\"checkbox\"]"

/-- The `[value="..."]` suffix of the radio fallback selector: empty when
`radioValue` is undefined (`none`) or null. -/
def radioValueSuffix : Option JValue → String
  | none => ""
  | some JValue.null => ""
  | some v => "[value=\"" ++ jsString v ++ "\"]"

/-- The structural fallback selector of the radio case (form.ts lines
110-118). -/
def radioFallbackSel (name : String) (radioValue : Option JValue) : String :=
  "input[type=\"radio\"][name=\"" ++ name ++ "\"]" ++ radioValueSuffix radioValue

/-- The structural fallback selector of the combobox case (form.ts line 130). -/
def comboboxFallbackSel (name : String) : String :=
  "select[name=\"" ++ name ++ "\"], [id=\"" ++ name ++ "\"]"

/-- The structural fallback selector of the slider case (form.ts line 142). -/
def sliderFallbackSel (name : String) : String :=
  "input[type=\"range\"][name=\"" ++ name ++ "\"], [id=\"" ++ name ++ "\"][type=\"range\"]"

/-- The try block of one iteration of the field loop (form.ts lines 71-152):
the switch on the declared field type — resolve the field locator, perform
the fill/check/uncheck/select action, and produce the success line; any
thrown error (locator exhaustion or a failing action) is the `.error`
branch. An unknown type only pushes a line. -/
def fillField (ops : FormOps) (f : Field) : Except String String :=
  match f.type with
  | "textbox" =>
    match FillFormTool.resolveFieldLocator ops.resolves [some f.name]
        [textboxFallbackSel f.name] with
    | .error e => .error e
    | .ok loc =>
      let stringValue := jsStringOrEmpty f.value
      match ops.fillOutcome loc stringValue with
      | .error e => .error e
      | .ok _ => .ok ("Filled textbox " ++ f.name ++ " with: " ++ stringValue)
  | "checkbox" =>
    match FillFormTool.resolveFieldLocator ops.resolves [some f.name]
        [checkboxFallbackSel f.name] with
    | .error e => .error e
    | .ok loc =>
      if jsTruthy f.value then
        match ops.checkOutcome loc with
        | .error e => .error e
        | .ok _ => .ok ("Checked checkbox: " ++ f.name)
      else
        match ops.uncheckOutcome loc with
        | .error e => .error e
        | .ok _ => .ok ("Unchecked checkbox: " ++ f.name)
  | "radio" =>
    let radioValue : Option JValue :=
      match f.value with
      | .arr xs => xs.head?
      | v => some v
    match FillFormTool.resolveFieldLocator ops.resolves
        [(match radioValue with | some (.str s) => some s | _ => none), some f.name]
        [radioFallbackSel f.name radioValue] with
    | .error e => .error e
    | .ok loc =>
      match ops.checkOutcome loc with
      | .error e => .error e
      | .ok _ =>
        .ok ("Selected radio " ++ f.name ++ ": " ++
          (match radioValue with | some v => jsString v | none => "undefined"))
  | "combobox" =>
    match FillFormTool.resolveFieldLocator ops.resolves [some f.name]
        [comboboxFallbackSel f.name] with
    | .error e => .error e
    | .ok loc =>
      match ops.selectOutcome loc f.value with
      | .error e => .error e
      | .ok _ =>
        .ok ("Selected option from " ++ f.name ++ ": " ++
          (match f.value with
           | .arr xs => String.intercalate ", " (jsStringList xs)
           | v => jsString v))
  | "slider" =>
    match FillFormTool.resolveFieldLocator ops.resolves [some f.name]
        [sliderFallbackSel f.name] with
    | .error e => .error e
    | .ok loc =>
      let sliderValue := jsStringOrEmpty f.value
      match ops.fillOutcome loc sliderValue with
      | .error e => .error e
      | .ok _ => .ok ("Set slider " ++ f.name ++ " to: " ++ sliderValue)
  | _ => .ok ("Unknown field type: " ++ f.type ++ " for " ++ f.name)

/-- One line of the `results` array per field: the success line, or — when
the try block threw — the catch line (form.ts lines 153-155), after which
the loop continues with the next field. -/
def fillFieldLine (ops : FormOps) (f : Field) : String :=
  match fillField ops f with
  | .ok msg => msg
  | .error e => "Failed to fill " ++ f.name ++ ": " ++
      e

/-- `FillFormTool._execute` restricted to its field loop and result
(form.ts lines 62-183) with `submit = false` (the submit branch is not
entered): one result line per field, wrapped into a non-error text result
headed `Form filled successfully`. -/
def FillFormTool.fillFormExecute (ops : FormOps) (fields : List Field) :
    Except String MCPToolResult :=
  let results := fields.map (fillFieldLine ops)
  .ok (textResult ("Form filled successfully:\n" ++ String.intercalate "\n" results))

/-- Claim C10: with `submit` false, a per-field failure neither aborts the
run nor produces an error result — the run always returns a non-error
result whose message begins `Form filled successfully`, with exactly one
line per field (so every later field is still attempted), and a field whose
resolution or action threw contributes its `Failed to fill` line in place,
even if every field failed. -/
theorem C10_fillform_per_field (ops : FormOps) (fields : List Field) :
    (∃ rest, FillFormTool.fillFormExecute ops fields =
      .ok { content := [{ type := "text", text := "Form filled successfully:\n" ++ rest }],
            isError := false }) ∧
    (∀ r, FillFormTool.fillFormExecute ops fields = .ok r → r.isError = false) ∧
    ((fields.map (fillFieldLine ops)).length = fields.length) ∧
    (∀ i f e, fields.get? i = some f → fillField ops f = .error e →
      (fields.map (fillFieldLine ops)).get? i =
        some ("Failed to fill " ++ f.name ++ ": " ++ e)) := by
  refine ⟨⟨String.intercalate "\n" (fields.map (fillFieldLine ops)), rfl⟩, ?_, ?_, ?_⟩
  · intro r hr
    simp only [FillFormTool.fillFormExecute, textResult, Except.ok.injEq] at hr
    rw [← hr]
  · exact List.length_map fields (fillFieldLine ops)
  · intro i f e hget herr
    rw [List.get?_map, hget]
    simp [fillFieldLine, herr]

/-- The concrete driver outcomes of the witness run: no factory ever
resolves, so every field fails to locate. -/
def failingFormOps : FormOps :=
  { resolves := fun _ => false,
    fillOutcome := fun _ _ => .ok (),
    checkOutcome := fun _ => .ok (),
    uncheckOutcome := fun _ => .ok (),
    selectOutcome := fun _ _ => .ok () }

/-- Claim C10 (witness): two fields that both fail to resolve still produce
a non-error `Form filled successfully` result, with one `Failed to fill`
line per field. -/
theorem C10_fillform_per_field_witness :
    (∃ rest, FillFormTool.fillFormExecute failingFormOps
        [⟨"Email", "textbox", .null⟩, ⟨"Agree", "checkbox", .bool true⟩] =
      .ok { content := [{ type := "text", text := "Form filled successfully:\n" ++ rest }],
            isError := false }) ∧
    ([(⟨"Email", "textbox", .null⟩ : Field), ⟨"Agree", "checkbox", .bool true⟩].map
        (fillFieldLine failingFormOps)).get? 0 =
      some "Failed to fill Email: Unable to locate field using Email" ∧
    ([(⟨"Email", "textbox", .null⟩ : Field), ⟨"Agree", "checkbox", .bool true⟩].map
        (fillFieldLine failingFormOps)).get? 1 =
      some "Failed to fill Agree: Unable to locate field using Agree" := by
  have h := C10_fillform_per_field failingFormOps
    [⟨"Email", "textbox", .null⟩, ⟨"Agree", "checkbox", .bool true⟩]
  refine ⟨h.1, ?_, ?_⟩
  · have := h.2.2.2 0 ⟨"Email", "textbox", .null⟩
      "Unable to locate field using Email" rfl rfl
    simpa using this
  · have := h.2.2.2 1 ⟨"Agree", "checkbox", .bool true⟩
      "Unable to locate field using Agree" rfl rfl
    simpa using this

end Bot
